import Mathlib

/-!
Verification of the bayeslite metamodel interface (`src/metamodel.py`).

The file shallowly embeds the module: Python values are modelled by
`PyVal` (with an explicit `none` constructor for Python `None`),
exceptions by `Except PyErr` results, the per-session metamodel dict
`bdb.metamodels` by a function `String → Option (Metamodel σ)`, and
`bdb.savepoint()` by explicit rollback of the abstract SQL state `σ` on
failure.  A `Metamodel σ` records its Python identity (`iid`, modelling
`id(obj)`, the default `==` on instances), its `name()` and the effect
of its `register` method on the SQL state together with a success flag
(`false` models a raised exception).
-/

/-- Python values as they cross the metamodel interface; `PyVal.none`
models Python `None`. -/
inductive PyVal where
  | none
  | bool (b : Bool)
  | int (z : ℤ)
  | float (q : ℚ)
  | str (s : String)
deriving DecidableEq

/-- Exceptions raised by the module: `NotImplementedError` from the stub
methods of `IBayesDBMetamodel`, `ValueError` from registration of a
duplicate name, `AssertionError` from the asserts in deregistration, and
an abstract stand-in for an exception propagated out of a provider's
`register` method. -/
inductive PyErr where
  | notImplementedError
  | valueError (msg : String)
  | assertionError
  | registerRaised
deriving DecidableEq

/-- A schema token: the docstring of `create_generator` describes each
schema item as a list of strings or lists of schema items. -/
inductive SchemaToken where
  | atom (s : String)
  | group (items : List SchemaToken)

/-- A registered statistical-model provider, as the registry functions
see it: `iid` is the Python object identity (what the default `==` in
`bayesdb_deregister_metamodel` compares), `mname` is the deterministic
result of `name()`, and `registerFn` is the effect of `register(bdb)` on
the SQL state, paired with `true` on success and `false` when the method
raises. -/
structure Metamodel (σ : Type) where
  iid : ℕ
  mname : String
  registerFn : σ → σ × Bool

/-- Python `==` between metamodel instances: default object identity. -/
def Metamodel.pyEq {σ : Type} (m m' : Metamodel σ) : Bool :=
  m.iid == m'.iid

/-- The host session: the `bdb.metamodels` dict and the abstract SQL
state governed by `bdb.savepoint()`. -/
structure BDB (σ : Type) where
  metamodels : String → Option (Metamodel σ)
  sqlState : σ

/-- `with bdb.savepoint():` around a body acting on the SQL state: on
success the body's state is kept, and when the body raises the SQL state
is rolled back to the state at entry (the exception still propagates,
reported by the `Bool`). -/
def BDB.savepoint {σ : Type} (s : σ) (body : σ → σ × Bool) : σ × Bool :=
  match body s with
  | (s', true) => (s', true)
  | (_, false) => (s, false)

/-- A host session with an empty metamodel registry. -/
def emptyBDB {σ : Type} (s : σ) : BDB σ :=
  { metamodels := fun _ => Option.none, sqlState := s }

/-- `bayesdb_register_metamodel(bdb, metamodel)`: raise `ValueError` if
the name is already registered; otherwise run `metamodel.register(bdb)`
inside a savepoint and, only once it has succeeded, store the binding in
`bdb.metamodels`.  The result pairs the session state afterwards with
the exception, if one was raised. -/
def bayesdb_register_metamodel {σ : Type} (bdb : BDB σ) (metamodel : Metamodel σ) :
    BDB σ × Option PyErr :=
  let name := metamodel.mname
  if (bdb.metamodels name).isSome then
    (bdb, Option.some (PyErr.valueError ("Metamodel already registered: " ++ name)))
  else
    match BDB.savepoint bdb.sqlState metamodel.registerFn with
    | (s', true) =>
        ({ metamodels := fun n => if n = name then Option.some metamodel else bdb.metamodels n,
           sqlState := s' }, Option.none)
    | (s', false) => ({ bdb with sqlState := s' }, Option.some PyErr.registerRaised)

/-- `bayesdb_deregister_metamodel(bdb, metamodel)`: assert that the name
is registered and that the registered instance is (`==`, i.e. identity)
the argument, then delete the binding. -/
def bayesdb_deregister_metamodel {σ : Type} (bdb : BDB σ) (metamodel : Metamodel σ) :
    BDB σ × Option PyErr :=
  let name := metamodel.mname
  match bdb.metamodels name with
  | Option.none => (bdb, Option.some PyErr.assertionError)
  | Option.some m =>
      if Metamodel.pyEq m metamodel then
        ({ bdb with metamodels := fun n => if n = name then Option.none else bdb.metamodels n },
         Option.none)
      else
        (bdb, Option.some PyErr.assertionError)

/-- The default body of `IBayesDBMetamodel.predict`: call
`self.predict_confidence` with the same session, generator id, column,
rowid and numsamples, and return `None` when the confidence is below the
threshold and the predicted value otherwise (an exception from
`predict_confidence` propagates). -/
def defaultPredict {σ : Type}
    (predict_confidence : σ → ℕ → ℕ → ℕ → Option ℕ → Except PyErr (PyVal × ℚ)) :
    σ → ℕ → ℕ → ℕ → ℚ → Option ℕ → Except PyErr PyVal :=
  fun bdb generator_id colno rowid threshold numsamples =>
    match predict_confidence bdb generator_id colno rowid numsamples with
    | Except.error e => Except.error e
    | Except.ok (value, confidence) =>
        if confidence < threshold then Except.ok PyVal.none
        else Except.ok value

/-- The `IBayesDBMetamodel` base class: every method raises
`NotImplementedError` except `predict`, whose default implementation is
the confidence-thresholding composition `defaultPredict` over the
instance's own `predict_confidence`.  A subclass is modelled as a
structure value overriding some fields; `σ` is the type of the host
session handle `bdb`, and the `initialize_models` method of the source
is rendered `init_models`.  The field for `predict_confidence` precedes
`predict` so that the default body of `predict` can refer to it. -/
structure IBayesDBMetamodel (σ : Type) where
  name : Unit → Except PyErr String :=
    fun _ => Except.error PyErr.notImplementedError
  register : σ → Except PyErr σ :=
    fun _ => Except.error PyErr.notImplementedError
  create_generator : σ → String → List (List SchemaToken) →
      (List (String × String) → ℕ × List (ℕ × String × String)) → Except PyErr σ :=
    fun _ _ _ _ => Except.error PyErr.notImplementedError
  drop_generator : σ → ℕ → Except PyErr σ :=
    fun _ _ => Except.error PyErr.notImplementedError
  rename_column : σ → ℕ → String → String → Except PyErr σ :=
    fun _ _ _ _ => Except.error PyErr.notImplementedError
  init_models : σ → ℕ → List ℕ → Option PyVal → Except PyErr σ :=
    fun _ _ _ _ => Except.error PyErr.notImplementedError
  drop_models : σ → ℕ → Option (List ℕ) → Except PyErr σ :=
    fun _ _ _ => Except.error PyErr.notImplementedError
  analyze_models : σ → ℕ → Option (List ℕ) → ℕ → Option ℕ → Option ℕ → Except PyErr σ :=
    fun _ _ _ _ _ _ => Except.error PyErr.notImplementedError
  column_dependence_probability : σ → ℕ → ℕ → ℕ → Except PyErr ℚ :=
    fun _ _ _ _ => Except.error PyErr.notImplementedError
  mutual_information : σ → ℕ → ℕ → ℕ → ℕ → Except PyErr ℚ :=
    fun _ _ _ _ _ => Except.error PyErr.notImplementedError
  column_typicality : σ → ℕ → ℕ → Except PyErr ℚ :=
    fun _ _ _ => Except.error PyErr.notImplementedError
  column_value_probability : σ → ℕ → ℕ → PyVal → Except PyErr ℚ :=
    fun _ _ _ _ => Except.error PyErr.notImplementedError
  row_similarity : σ → ℕ → ℕ → ℕ → List ℕ → Except PyErr ℚ :=
    fun _ _ _ _ _ => Except.error PyErr.notImplementedError
  row_typicality : σ → ℕ → ℕ → Except PyErr ℚ :=
    fun _ _ _ => Except.error PyErr.notImplementedError
  row_column_predictive_probability : σ → ℕ → ℕ → ℕ → Except PyErr PyVal :=
    fun _ _ _ _ => Except.error PyErr.notImplementedError
  predict_confidence : σ → ℕ → ℕ → ℕ → Option ℕ → Except PyErr (PyVal × ℚ) :=
    fun _ _ _ _ _ => Except.error PyErr.notImplementedError
  predict : σ → ℕ → ℕ → ℕ → ℚ → Option ℕ → Except PyErr PyVal :=
    defaultPredict predict_confidence
  simulate : σ → ℕ → List (ℕ × PyVal) → List ℕ → ℕ → Except PyErr (List (List PyVal)) :=
    fun _ _ _ _ _ => Except.error PyErr.notImplementedError
  insertmany : σ → ℕ → List (List PyVal) → Except PyErr σ :=
    fun _ _ _ => Except.error PyErr.notImplementedError

/-- The base class itself, no method overridden. -/
def baseMetamodel (σ : Type) : IBayesDBMetamodel σ := {}

/-- Modelled from the spec: src holds only the abstract declaration of
`row_column_predictive_probability` (its body raises
`NotImplementedError`); the behaviour of a conforming implementation is
missing from src.  Following the spec, given the observed table cells
(`cell`, per generator, row and column) and the provider's predictive
probability estimate (`pp`), the operation returns null exactly when the
row's observed value for the column is null, and the estimate otherwise. -/
def row_column_predictive_probability_impl
    (cell : ℕ → ℕ → ℕ → PyVal) (pp : ℕ → ℕ → ℕ → ℚ)
    (generator_id rowid colno : ℕ) : PyVal :=
  if cell generator_id rowid colno = PyVal.none then PyVal.none
  else PyVal.float (pp generator_id rowid colno)

/-- One registry operation: a call to `bayesdb_register_metamodel` or to
`bayesdb_deregister_metamodel`. -/
inductive RegOp (σ : Type) where
  | reg (m : Metamodel σ)
  | dereg (m : Metamodel σ)

/-- Run one registry operation, keeping the session state it leaves
behind whether or not the operation raised. -/
def applyOp {σ : Type} (bdb : BDB σ) (op : RegOp σ) : BDB σ :=
  match op with
  | RegOp.reg m => (bayesdb_register_metamodel bdb m).1
  | RegOp.dereg m => (bayesdb_deregister_metamodel bdb m).1

/-- Run a sequence of registry operations from a given session state. -/
def applyOps {σ : Type} (bdb : BDB σ) (ops : List (RegOp σ)) : BDB σ :=
  ops.foldl applyOp bdb

/-- Every binding `n ↦ m` of the registry satisfies `m.name() = n`. -/
def RegistryConsistent {σ : Type} (bdb : BDB σ) : Prop :=
  ∀ n m, bdb.metamodels n = Option.some m → m.mname = n

/-- A `predict_confidence` that always yields the value `None` with
confidence `0` (a provider may legitimately predict `None`). -/
def pcAllNone : Unit → ℕ → ℕ → ℕ → Option ℕ → Except PyErr (PyVal × ℚ) :=
  fun _ _ _ _ _ => Except.ok (PyVal.none, 0)

/-- A `predict_confidence` that yields the value `7.0` with confidence
`1`, for concrete evaluation. -/
def pcSeven : Unit → ℕ → ℕ → ℕ → Option ℕ → Except PyErr (PyVal × ℚ) :=
  fun _ _ _ _ _ => Except.ok (PyVal.float 7, 1)

/-- A metamodel named `crosscat` whose `register` succeeds, bumping the
SQL state. -/
def mmCrosscat0 : Metamodel ℕ := ⟨0, ("crosscat"), fun s => (s + 1, true)⟩

/-- A second, distinct instance also named `crosscat`. -/
def mmCrosscat1 : Metamodel ℕ := ⟨1, ("crosscat"), fun s => (s + 1, true)⟩

/-- A metamodel whose `register` method writes to the SQL state and then
raises. -/
def mmLoomFail : Metamodel ℕ := ⟨2, ("loom"), fun s => (s + 5, false)⟩

/-- The session obtained by registering `mmCrosscat0` in an empty
session. -/
def bdbOne : BDB ℕ := (bayesdb_register_metamodel (emptyBDB 0) mmCrosscat0).1

/-- C1 counterexample: with a `predict_confidence` that yields value
`None` at confidence `0` and a threshold of `1`, `predict` returns
exactly the value `predict_confidence` yielded even though the
confidence is below the threshold, so "returns the value it yields if
and only if the confidence is at least the threshold" fails as stated. -/
theorem C1_predict_iff_counterexample :
    ¬ (defaultPredict pcAllNone () 0 0 0 1 Option.none = Except.ok PyVal.none ↔ (1 : ℚ) ≤ 0) := by
  intro h
  have hle : (1 : ℚ) ≤ 0 := h.mp rfl
  norm_num at hle

/-- C1 amended: `predict` calls `predict_confidence` with the same
generator id, column, rowid and numsamples, returns `None` when the
returned confidence is below the threshold and the yielded value when it
is at least the threshold; whenever the yielded value is itself
non-`None`, the result equals that value if and only if the confidence
is at least the threshold (when the yielded value is `None`, both
branches return `None`). -/
theorem C1_predict_thresholds {σ : Type}
    (pc : σ → ℕ → ℕ → ℕ → Option ℕ → Except PyErr (PyVal × ℚ))
    (bdb : σ) (generator_id colno rowid : ℕ) (threshold : ℚ) (numsamples : Option ℕ)
    (value : PyVal) (confidence : ℚ)
    (h : pc bdb generator_id colno rowid numsamples = Except.ok (value, confidence)) :
    defaultPredict pc bdb generator_id colno rowid threshold numsamples
      = (if confidence < threshold then Except.ok PyVal.none else Except.ok value)
    ∧ (value ≠ PyVal.none →
        (defaultPredict pc bdb generator_id colno rowid threshold numsamples = Except.ok value
          ↔ threshold ≤ confidence)) := by
  constructor
  · simp [defaultPredict, h]
  · intro hv
    by_cases hc : confidence < threshold
    · simp [defaultPredict, h, hc]
      constructor
      · intro he
        exact absurd he.symm hv
      · intro hle
        exact absurd hle (not_le.mpr hc)
    · simp [defaultPredict, h, hc]
      exact le_of_not_lt hc

/-- C1 witness: the amended theorem evaluated for a provider predicting
`7.0` at confidence `1` against threshold `0`. -/
theorem C1_predict_thresholds_witness :
    defaultPredict pcSeven () 0 0 0 0 Option.none
      = (if (1 : ℚ) < 0 then Except.ok PyVal.none else Except.ok (PyVal.float 7))
    ∧ (PyVal.float 7 ≠ PyVal.none →
        (defaultPredict pcSeven () 0 0 0 0 Option.none = Except.ok (PyVal.float 7)
          ↔ (0 : ℚ) ≤ 1)) :=
  C1_predict_thresholds pcSeven () 0 0 0 0 Option.none (PyVal.float 7) 1 rfl

/-- C2: registering a metamodel whose name is already bound raises
`ValueError` and leaves the registry entry for that name mapping to the
first instance. -/
theorem C2_register_duplicate_name_fails {σ : Type} (bdb : BDB σ) (m1 m2 : Metamodel σ)
    (hname : m2.mname = m1.mname)
    (hreg : bdb.metamodels m1.mname = Option.some m1) :
    (bayesdb_register_metamodel bdb m2).2
      = Option.some (PyErr.valueError ("Metamodel already registered: " ++ m2.mname))
    ∧ (bayesdb_register_metamodel bdb m2).1.metamodels m1.mname = Option.some m1 := by
  constructor <;> simp [bayesdb_register_metamodel, hname, hreg]

/-- C2 witness: a second `crosscat` instance registered over the first. -/
theorem C2_register_duplicate_name_fails_witness :
    (bayesdb_register_metamodel bdbOne mmCrosscat1).2
      = Option.some (PyErr.valueError ("Metamodel already registered: " ++ mmCrosscat1.mname))
    ∧ (bayesdb_register_metamodel bdbOne mmCrosscat1).1.metamodels mmCrosscat0.mname
      = Option.some mmCrosscat0 :=
  C2_register_duplicate_name_fails bdbOne mmCrosscat0 mmCrosscat1 rfl rfl

/-- C3: for a name not yet registered, `bayesdb_register_metamodel` runs
`metamodel.register` inside a savepoint and publishes the binding only
after `register` succeeds, keeping the SQL state `register` produced;
when `register` raises, the exception propagates, the registry does not
contain the name afterwards, and the SQL state is rolled back to its
value at entry, so no partial installation state is visible. -/
theorem C3_register_publishes_only_on_success {σ : Type} (bdb : BDB σ) (m : Metamodel σ)
    (hfree : bdb.metamodels m.mname = Option.none) :
    ((m.registerFn bdb.sqlState).2 = true →
        (bayesdb_register_metamodel bdb m).2 = Option.none
        ∧ (bayesdb_register_metamodel bdb m).1.metamodels m.mname = Option.some m
        ∧ (bayesdb_register_metamodel bdb m).1.sqlState = (m.registerFn bdb.sqlState).1)
    ∧ ((m.registerFn bdb.sqlState).2 = false →
        (bayesdb_register_metamodel bdb m).2 = Option.some PyErr.registerRaised
        ∧ (bayesdb_register_metamodel bdb m).1.metamodels m.mname = Option.none
        ∧ (bayesdb_register_metamodel bdb m).1.sqlState = bdb.sqlState) := by
  rcases hr : m.registerFn bdb.sqlState with ⟨s1, b⟩
  cases b <;>
    simp [bayesdb_register_metamodel, BDB.savepoint, hfree, hr]

/-- C3 witness: successful registration of `crosscat` publishes the
binding with the bumped SQL state, and the failing `loom` registration
leaves the registry without the name and the SQL state rolled back. -/
theorem C3_register_publishes_only_on_success_witness :
    ((bayesdb_register_metamodel (emptyBDB 0) mmCrosscat0).2 = Option.none
      ∧ (bayesdb_register_metamodel (emptyBDB 0) mmCrosscat0).1.metamodels mmCrosscat0.mname
          = Option.some mmCrosscat0
      ∧ (bayesdb_register_metamodel (emptyBDB 0) mmCrosscat0).1.sqlState
          = (mmCrosscat0.registerFn (emptyBDB 0).sqlState).1)
    ∧ ((bayesdb_register_metamodel (emptyBDB 0) mmLoomFail).2 = Option.some PyErr.registerRaised
      ∧ (bayesdb_register_metamodel (emptyBDB 0) mmLoomFail).1.metamodels mmLoomFail.mname
          = Option.none
      ∧ (bayesdb_register_metamodel (emptyBDB 0) mmLoomFail).1.sqlState = (emptyBDB 0).sqlState) :=
  ⟨(C3_register_publishes_only_on_success (emptyBDB 0) mmCrosscat0 rfl).1 rfl,
   (C3_register_publishes_only_on_success (emptyBDB 0) mmLoomFail rfl).2 rfl⟩

/-- C4: `bayesdb_deregister_metamodel` raises `AssertionError` when the
instance's name is not registered, and also when the entry under that
name holds a different instance (identity, not name equality, decides),
leaving the session unchanged in both cases; on the exact registered
instance it removes the binding and raises nothing. -/
theorem C4_deregister_requires_exact_instance {σ : Type} (bdb : BDB σ) (m : Metamodel σ) :
    (bdb.metamodels m.mname = Option.none →
        bayesdb_deregister_metamodel bdb m = (bdb, Option.some PyErr.assertionError))
    ∧ (∀ m', bdb.metamodels m.mname = Option.some m' → m'.iid ≠ m.iid →
        bayesdb_deregister_metamodel bdb m = (bdb, Option.some PyErr.assertionError))
    ∧ (∀ m', bdb.metamodels m.mname = Option.some m' → m'.iid = m.iid →
        (bayesdb_deregister_metamodel bdb m).2 = Option.none
        ∧ (bayesdb_deregister_metamodel bdb m).1.metamodels m.mname = Option.none) := by
  refine ⟨fun h => ?_, fun m' h hne => ?_, fun m' h he => ?_⟩
  · simp [bayesdb_deregister_metamodel, h]
  · simp [bayesdb_deregister_metamodel, Metamodel.pyEq, h, hne]
  · simp [bayesdb_deregister_metamodel, Metamodel.pyEq, h, he]

/-- C4 witness: in the session holding only the first `crosscat`
instance, deregistering the second same-named instance fails, while
deregistering the registered instance removes the binding; in the empty
session deregistering fails. -/
theorem C4_deregister_requires_exact_instance_witness :
    (bayesdb_deregister_metamodel (emptyBDB (0 : ℕ)) mmCrosscat0
        = (emptyBDB (0 : ℕ), Option.some PyErr.assertionError))
    ∧ (bayesdb_deregister_metamodel bdbOne mmCrosscat1
        = (bdbOne, Option.some PyErr.assertionError))
    ∧ ((bayesdb_deregister_metamodel bdbOne mmCrosscat0).2 = Option.none
      ∧ (bayesdb_deregister_metamodel bdbOne mmCrosscat0).1.metamodels mmCrosscat0.mname
          = Option.none) :=
  ⟨(C4_deregister_requires_exact_instance (emptyBDB 0) mmCrosscat0).1 rfl,
   (C4_deregister_requires_exact_instance bdbOne mmCrosscat1).2.1 mmCrosscat0 rfl
     (by decide),
   (C4_deregister_requires_exact_instance bdbOne mmCrosscat0).2.2 mmCrosscat0 rfl rfl⟩

/-- C5: registering a metamodel `m` whose name was free and whose
`register` succeeds, then deregistering it, succeeds and restores the
registry map exactly; registering afterwards a metamodel with the same
name (whose own `register` succeeds on the resulting SQL state) raises
nothing and binds the name to the new instance — the name is available
for reuse. -/
theorem C5_register_deregister_roundtrip {σ : Type} (bdb : BDB σ) (m m' : Metamodel σ)
    (hfree : bdb.metamodels m.mname = Option.none)
    (hok : (m.registerFn bdb.sqlState).2 = true)
    (hname : m'.mname = m.mname)
    (hok' : (m'.registerFn (m.registerFn bdb.sqlState).1).2 = true) :
    (bayesdb_deregister_metamodel (bayesdb_register_metamodel bdb m).1 m).2 = Option.none
    ∧ (bayesdb_deregister_metamodel (bayesdb_register_metamodel bdb m).1 m).1.metamodels
        = bdb.metamodels
    ∧ (bayesdb_register_metamodel
        (bayesdb_deregister_metamodel (bayesdb_register_metamodel bdb m).1 m).1 m').2
        = Option.none
    ∧ (bayesdb_register_metamodel
        (bayesdb_deregister_metamodel (bayesdb_register_metamodel bdb m).1 m).1 m').1.metamodels
        m'.mname = Option.some m' := by
  rcases hr : m.registerFn bdb.sqlState with ⟨s1, b⟩
  rw [hr] at hok hok'
  cases b
  · exact absurd hok (by simp)
  · rcases hr' : m'.registerFn s1 with ⟨s2, b'⟩
    rw [hr'] at hok'
    cases b'
    · exact absurd hok' (by simp)
    · have h1 : bayesdb_register_metamodel bdb m
          = ({ metamodels := fun n => if n = m.mname then Option.some m else bdb.metamodels n,
               sqlState := s1 }, Option.none) := by
        simp [bayesdb_register_metamodel, BDB.savepoint, hfree, hr]
      have h2 : bayesdb_deregister_metamodel (bayesdb_register_metamodel bdb m).1 m
          = ({ metamodels := bdb.metamodels, sqlState := s1 }, Option.none) := by
        rw [h1]
        simp only [bayesdb_deregister_metamodel, Metamodel.pyEq, beq_self_eq_true,
          if_true, if_pos rfl]
        refine congrArg
          (fun f => (({ metamodels := f, sqlState := s1 } : BDB σ), (Option.none : Option PyErr))) ?_
        funext n
        by_cases hn : n = m.mname
        · subst hn
          simp [hfree]
        · simp [hn]
      rw [h2]
      refine ⟨rfl, rfl, ?_, ?_⟩
      · simp [bayesdb_register_metamodel, BDB.savepoint, hname, hfree, hr']
      · simp [bayesdb_register_metamodel, BDB.savepoint, hname, hfree, hr']

/-- C5 witness: register then deregister the first `crosscat` instance
starting from the empty session, then register the second instance under
the now-free name. -/
theorem C5_register_deregister_roundtrip_witness :
    (bayesdb_deregister_metamodel (bayesdb_register_metamodel (emptyBDB 0) mmCrosscat0).1
        mmCrosscat0).2 = Option.none
    ∧ (bayesdb_deregister_metamodel (bayesdb_register_metamodel (emptyBDB 0) mmCrosscat0).1
        mmCrosscat0).1.metamodels = (emptyBDB 0).metamodels
    ∧ (bayesdb_register_metamodel
        (bayesdb_deregister_metamodel (bayesdb_register_metamodel (emptyBDB 0) mmCrosscat0).1
          mmCrosscat0).1 mmCrosscat1).2 = Option.none
    ∧ (bayesdb_register_metamodel
        (bayesdb_deregister_metamodel (bayesdb_register_metamodel (emptyBDB 0) mmCrosscat0).1
          mmCrosscat0).1 mmCrosscat1).1.metamodels mmCrosscat1.mname
        = Option.some mmCrosscat1 :=
  C5_register_deregister_roundtrip (emptyBDB 0) mmCrosscat0 mmCrosscat1 rfl rfl rfl rfl

/-- C6: the conforming `row_column_predictive_probability` modelled from
the spec returns null exactly when the row's observed value for the
column is null; otherwise it returns a float, never null. -/
theorem C6_predictive_probability_null_iff_null
    (cell : ℕ → ℕ → ℕ → PyVal) (pp : ℕ → ℕ → ℕ → ℚ) (generator_id rowid colno : ℕ) :
    row_column_predictive_probability_impl cell pp generator_id rowid colno = PyVal.none
      ↔ cell generator_id rowid colno = PyVal.none := by
  unfold row_column_predictive_probability_impl
  split
  · simp [*]
  · simp [*]

/-- C7: `rename_column` on the base contract fails with the
unsupported-operation error `NotImplementedError` for every session,
generator id and pair of old/new names, rather than silently
succeeding. -/
theorem C7_rename_column_unsupported {σ : Type} (bdb : σ) (generator_id : ℕ)
    (oldname newname : String) :
    (baseMetamodel σ).rename_column bdb generator_id oldname newname
      = Except.error PyErr.notImplementedError := rfl

/-- Helper for C8: one registry operation preserves key consistency of
the registry, whatever its outcome. -/
theorem registryConsistent_applyOp {σ : Type} (bdb : BDB σ) (op : RegOp σ)
    (h : RegistryConsistent bdb) : RegistryConsistent (applyOp bdb op) := by
  cases op with
  | reg m =>
      intro n m0 hm0
      by_cases hs : (bdb.metamodels m.mname).isSome
      · rw [applyOp, bayesdb_register_metamodel] at hm0
        simp only [hs, if_true] at hm0
        exact h n m0 hm0
      · rw [applyOp, bayesdb_register_metamodel] at hm0
        simp only [hs, if_false, Bool.false_eq_true] at hm0
        rcases hr : BDB.savepoint bdb.sqlState m.registerFn with ⟨s1, b⟩
        rw [hr] at hm0
        cases b
        · exact h n m0 hm0
        · simp only at hm0
          by_cases hn : n = m.mname
          · rw [if_pos hn] at hm0
            cases hm0
            exact hn.symm
          · rw [if_neg hn] at hm0
            exact h n m0 hm0
  | dereg m =>
      intro n m0 hm0
      rw [applyOp, bayesdb_deregister_metamodel] at hm0
      rcases hl : bdb.metamodels m.mname with _ | m1
      · rw [hl] at hm0
        exact h n m0 hm0
      · rw [hl] at hm0
        by_cases hq : Metamodel.pyEq m1 m
        · simp only [hq, if_true] at hm0
          by_cases hn : n = m.mname
          · rw [if_pos hn] at hm0
            cases hm0
          · rw [if_neg hn] at hm0
            exact h n m0 hm0
        · simp only [hq, if_false, Bool.false_eq_true] at hm0
          exact h n m0 hm0

/-- C8: starting from an empty registry, after any sequence of
register/deregister operations every binding `n ↦ m` of the registry
satisfies `m.name() = n`, so lookup by name yields a metamodel bearing
that name. -/
theorem C8_registry_key_consistency {σ : Type} (s : σ) (ops : List (RegOp σ)) :
    RegistryConsistent (applyOps (emptyBDB s) ops) := by
  have hgen : ∀ (ops : List (RegOp σ)) (bdb : BDB σ),
      RegistryConsistent bdb → RegistryConsistent (applyOps bdb ops) := by
    intro ops
    induction ops with
    | nil => intro bdb h; exact h
    | cons op rest ih =>
        intro bdb h
        exact ih (applyOp bdb op) (registryConsistent_applyOp bdb op h)
  refine hgen ops (emptyBDB s) ?_
  intro n m hm
  cases hm

/-- C8 witness: the invariant evaluated on a concrete operation
sequence. -/
theorem C8_registry_key_consistency_witness :
    RegistryConsistent
      (applyOps (emptyBDB (0 : ℕ))
        [RegOp.reg mmCrosscat0, RegOp.reg mmCrosscat1, RegOp.dereg mmCrosscat0,
         RegOp.reg mmLoomFail]) :=
  C8_registry_key_consistency 0
    [RegOp.reg mmCrosscat0, RegOp.reg mmCrosscat1, RegOp.dereg mmCrosscat0,
     RegOp.reg mmLoomFail]

/-- C9: a successful `bayesdb_register_metamodel` adds exactly the one
binding for `metamodel.name()` and leaves every other registry entry
unchanged; a successful `bayesdb_deregister_metamodel` removes exactly
that one binding and leaves every other entry unchanged. -/
theorem C9_registry_frame {σ : Type} (bdb : BDB σ) (m : Metamodel σ) :
    ((bayesdb_register_metamodel bdb m).2 = Option.none →
        (bayesdb_register_metamodel bdb m).1.metamodels m.mname = Option.some m
        ∧ ∀ n, n ≠ m.mname →
            (bayesdb_register_metamodel bdb m).1.metamodels n = bdb.metamodels n)
    ∧ ((bayesdb_deregister_metamodel bdb m).2 = Option.none →
        (bayesdb_deregister_metamodel bdb m).1.metamodels m.mname = Option.none
        ∧ ∀ n, n ≠ m.mname →
            (bayesdb_deregister_metamodel bdb m).1.metamodels n = bdb.metamodels n) := by
  constructor
  · intro hok
    by_cases hs : (bdb.metamodels m.mname).isSome
    · rw [bayesdb_register_metamodel] at hok
      simp [hs] at hok
    · rcases hr : BDB.savepoint bdb.sqlState m.registerFn with ⟨s1, b⟩
      cases b
      · rw [bayesdb_register_metamodel] at hok
        simp [hs, hr] at hok
      · constructor
        · simp [bayesdb_register_metamodel, hs, hr]
        · intro n hn
          simp [bayesdb_register_metamodel, hs, hr, hn]
  · intro hok
    rcases hl : bdb.metamodels m.mname with _ | m1
    · rw [bayesdb_deregister_metamodel] at hok
      simp [hl] at hok
    · by_cases hq : Metamodel.pyEq m1 m
      · constructor
        · simp [bayesdb_deregister_metamodel, hl, hq]
        · intro n hn
          simp [bayesdb_deregister_metamodel, hl, hq, hn]
      · rw [bayesdb_deregister_metamodel] at hok
        simp [hl, hq] at hok

/-- C9 witness: the frame property evaluated on the successful
registration of `crosscat` into the empty session and the successful
deregistration from the resulting session. -/
theorem C9_registry_frame_witness :
    ((bayesdb_register_metamodel (emptyBDB 0) mmCrosscat0).1.metamodels mmCrosscat0.mname
        = Option.some mmCrosscat0
      ∧ ∀ n, n ≠ mmCrosscat0.mname →
          (bayesdb_register_metamodel (emptyBDB 0) mmCrosscat0).1.metamodels n
            = (emptyBDB 0).metamodels n)
    ∧ ((bayesdb_deregister_metamodel bdbOne mmCrosscat0).1.metamodels mmCrosscat0.mname
        = Option.none
      ∧ ∀ n, n ≠ mmCrosscat0.mname →
          (bayesdb_deregister_metamodel bdbOne mmCrosscat0).1.metamodels n
            = bdbOne.metamodels n) :=
  ⟨(C9_registry_frame (emptyBDB 0) mmCrosscat0).1 rfl,
   (C9_registry_frame bdbOne mmCrosscat0).2 rfl⟩

/-- C10: every operation of the base contract class other than `predict`
raises `NotImplementedError` when invoked on the base class itself, for
all arguments; `predict` alone has a concrete default implementation,
namely the confidence-thresholding composition `defaultPredict` over the
instance's own `predict_confidence` (so overriding only
`predict_confidence` determines `predict`). -/
theorem C10_base_class_stubs {σ : Type} :
    (∀ u, (baseMetamodel σ).name u = Except.error PyErr.notImplementedError)
    ∧ (∀ bdb, (baseMetamodel σ).register bdb = Except.error PyErr.notImplementedError)
    ∧ (∀ bdb table schema inst, (baseMetamodel σ).create_generator bdb table schema inst
        = Except.error PyErr.notImplementedError)
    ∧ (∀ bdb generator_id, (baseMetamodel σ).drop_generator bdb generator_id
        = Except.error PyErr.notImplementedError)
    ∧ (∀ bdb generator_id oldname newname,
        (baseMetamodel σ).rename_column bdb generator_id oldname newname
        = Except.error PyErr.notImplementedError)
    ∧ (∀ bdb generator_id modelnos model_config,
        (baseMetamodel σ).init_models bdb generator_id modelnos model_config
        = Except.error PyErr.notImplementedError)
    ∧ (∀ bdb generator_id modelnos, (baseMetamodel σ).drop_models bdb generator_id modelnos
        = Except.error PyErr.notImplementedError)
    ∧ (∀ bdb generator_id modelnos iterations max_seconds iterations_per_checkpoint,
        (baseMetamodel σ).analyze_models bdb generator_id modelnos iterations max_seconds
          iterations_per_checkpoint
        = Except.error PyErr.notImplementedError)
    ∧ (∀ bdb generator_id colno0 colno1,
        (baseMetamodel σ).column_dependence_probability bdb generator_id colno0 colno1
        = Except.error PyErr.notImplementedError)
    ∧ (∀ bdb generator_id colno0 colno1 numsamples,
        (baseMetamodel σ).mutual_information bdb generator_id colno0 colno1 numsamples
        = Except.error PyErr.notImplementedError)
    ∧ (∀ bdb generator_id colno, (baseMetamodel σ).column_typicality bdb generator_id colno
        = Except.error PyErr.notImplementedError)
    ∧ (∀ bdb generator_id colno value,
        (baseMetamodel σ).column_value_probability bdb generator_id colno value
        = Except.error PyErr.notImplementedError)
    ∧ (∀ bdb generator_id rowid target_rowid colnos,
        (baseMetamodel σ).row_similarity bdb generator_id rowid target_rowid colnos
        = Except.error PyErr.notImplementedError)
    ∧ (∀ bdb generator_id rowid, (baseMetamodel σ).row_typicality bdb generator_id rowid
        = Except.error PyErr.notImplementedError)
    ∧ (∀ bdb generator_id rowid colno,
        (baseMetamodel σ).row_column_predictive_probability bdb generator_id rowid colno
        = Except.error PyErr.notImplementedError)
    ∧ (∀ bdb generator_id colno rowid numsamples,
        (baseMetamodel σ).predict_confidence bdb generator_id colno rowid numsamples
        = Except.error PyErr.notImplementedError)
    ∧ (∀ bdb generator_id constraints colnos numpredictions,
        (baseMetamodel σ).simulate bdb generator_id constraints colnos numpredictions
        = Except.error PyErr.notImplementedError)
    ∧ (∀ bdb generator_id rows, (baseMetamodel σ).insertmany bdb generator_id rows
        = Except.error PyErr.notImplementedError)
    ∧ (∀ pc, ({ predict_confidence := pc } : IBayesDBMetamodel σ).predict = defaultPredict pc)
    ∧ (baseMetamodel σ).predict = defaultPredict (baseMetamodel σ).predict_confidence :=
  ⟨fun _ => rfl, fun _ => rfl, fun _ _ _ _ => rfl, fun _ _ => rfl, fun _ _ _ _ => rfl,
   fun _ _ _ _ => rfl, fun _ _ _ => rfl, fun _ _ _ _ _ _ => rfl, fun _ _ _ _ => rfl,
   fun _ _ _ _ _ => rfl, fun _ _ _ => rfl, fun _ _ _ _ => rfl, fun _ _ _ _ _ => rfl,
   fun _ _ _ => rfl, fun _ _ _ _ => rfl, fun _ _ _ _ _ => rfl, fun _ _ _ _ _ => rfl,
   fun _ _ _ => rfl, fun _ => rfl, rfl⟩
